import Mathlib

/-!
Shallow embedding of the scoring-and-position-management engine of
`paperstrat.go` (the paper-trading bot of dexscreener-tradebot).

Modelling conventions:
* Go `float64` values are modelled as `ℚ` (exact rational arithmetic);
  every constant of the source is an exact decimal, so all source
  computations are translated term by term.
* Go `time.Time` / `time.Duration` values are modelled as `ℚ` seconds;
  `time.Since(t)` at the current instant `now` is `now - t`.
* Go strings carrying parsed decimals (`PriceNative`, `PriceUsd`) are
  modelled as `Option ℚ`: `none` is an unparsable string, and `parseFloat`
  applies the source's fallback default.
* The global mutable `wallet`/`holding` pair is threaded explicitly as a
  `ScanState` value through `runScan`.
* `log.Printf` side effects that matter to the decision logic are recorded
  as an `Event` trace; file/JSON writes are represented by the log-entry
  values the source constructs.
-/

namespace Paperstrat

/-! ### Constants (paperstrat.go lines 19–51) -/

def tradeSizeSOL : ℚ := 1
def simulatedFeePercent : ℚ := 3 / 1000
def minLiquidityUSD : ℚ := 2000
def minVolume5mUSD : ℚ := 500
def minPairAgeHours : ℚ := 1
def wM5Change : ℚ := 30 / 100
def wH1Change : ℚ := 15 / 100
def wM5Volume : ℚ := 20 / 100
def wM5BuySellRatio : ℚ := 25 / 100
def wLiquidity : ℚ := 10 / 100
def minScoreToEnter : ℚ := 65 / 100
def takeProfitThreshold : ℚ := 105 / 100
def trailingStopLossPercent : ℚ := 3 / 100
def momentumFadeExitM5 : ℚ := 1 / 1000
def liquidityDropPercent : ℚ := 30 / 100

/-! ### Upstream data (DexScreener structs, lines 56–63) -/

structure Token where
  address : String
  name : String
  symbol : String
deriving DecidableEq

structure BuysSells where
  buys : ℤ
  sells : ℤ
deriving DecidableEq

/-- One fetched pair, restricted to the fields `runScan` reads.  String
decimal fields are pre-parsed into `Option ℚ` (`none` = unparsable). -/
structure Pair where
  pairAddress : String
  baseToken : Token
  quoteToken : Token
  priceNative : Option ℚ
  priceUsd : Option ℚ
  txnsM5 : BuysSells
  volumeM5 : ℚ
  priceChangeM5 : ℚ
  priceChangeH1 : ℚ
  liquidityUsd : ℚ
  pairCreatedAt : ℤ  -- epoch milliseconds, as in the API
  url : String
deriving DecidableEq

/-! ### TokenInfo (lines 67–90) -/

structure TokenInfo where
  pairAddress : String
  baseTokenSymbol : String
  baseTokenAddr : String
  quoteTokenSymbol : String
  quoteTokenAddr : String
  pairCreatedAt : ℤ  -- epoch seconds (time.Unix(ms/1000, 0))
  priceNative : ℚ
  priceUSD : ℚ
  liquidityUSD : ℚ
  priceChangeM5 : ℚ
  priceChangeH1 : ℚ
  volumeM5 : ℚ
  m5BuySellRatio : ℚ
  pairURL : String
  normM5Change : ℚ := 0
  normH1Change : ℚ := 0
  normM5Volume : ℚ := 0
  normM5BuySellRatio : ℚ := 0
  normLiquidity : ℚ := 0
  score : ℚ := 0
deriving DecidableEq

def defaultTokenInfo : TokenInfo :=
  { pairAddress := "", baseTokenSymbol := "", baseTokenAddr := ""
    quoteTokenSymbol := "", quoteTokenAddr := "", pairCreatedAt := 0
    priceNative := 0, priceUSD := 0, liquidityUSD := 0, priceChangeM5 := 0
    priceChangeH1 := 0, volumeM5 := 0, m5BuySellRatio := 0, pairURL := "" }

instance : Inhabited TokenInfo := ⟨defaultTokenInfo⟩

/-! ### Paper trading state (lines 93–135) -/

structure PaperWallet where
  solBalance : ℚ
  initialSOL : ℚ
  tradesMade : ℕ
  profitableTrades : ℕ
  totalFeesPaid : ℚ
deriving DecidableEq

structure CurrentHolding where
  active : Bool
  baseTokenSymbol : String := ""
  baseTokenAddr : String := ""
  quoteTokenSymbol : String := ""
  quoteTokenAddr : String := ""
  pairAddress : String := ""
  amountToken : ℚ := 0
  entryPriceNative : ℚ := 0
  entryTime : ℚ := 0
  entryLiquidityUSD : ℚ := 0
  peakPriceNative : ℚ := 0
deriving DecidableEq

/-- Why a SELL fired; the source stores the corresponding reason string. -/
inductive ExitReason where
  | liquidityDrop
  | trailingStop
  | takeProfit
  | momentumFade
deriving DecidableEq

structure TradeLogEntry where
  timestamp : ℚ
  action : String  -- "BUY" or "SELL"
  symbol : String
  pairAddress : String
  solAmount : ℚ
  tokenAmount : ℚ
  priceNative : ℚ
  feeSOL : ℚ
  profitLossSOL : ℚ := 0
  reason : Option ExitReason := none
deriving DecidableEq

structure WalletLogEntry where
  timestamp : ℚ
  solBalance : ℚ
  holding : CurrentHolding
  tradesMade : ℕ
  feesPaid : ℚ
deriving DecidableEq

/-- The two mutable globals of the source, threaded explicitly. -/
structure ScanState where
  wallet : PaperWallet
  holding : CurrentHolding
deriving DecidableEq

/-! ### Helper functions (lines 159–195) -/

/-- `parseFloat` (lines 159–165): `strconv.ParseFloat` with a fallback. -/
def parseFloat (val : Option ℚ) (defaultVal : ℚ) : ℚ :=
  match val with
  | none => defaultVal
  | some f => f

/-- `calculateBuySellRatio` (lines 167–173). -/
def calculateBuySellRatio (buys sells : ℤ) : ℚ :=
  let totalTxns := buys + sells
  if totalTxns = 0 then
    1 / 2  -- Neutral if no transactions
  else
    (buys : ℚ) / (totalTxns : ℚ)

/-- `normalize` (lines 175–180). -/
def normalize (value min max : ℚ) : ℚ :=
  if max - min = 0 then
    0  -- Avoid division by zero; return neutral or zero
  else
    (value - min) / (max - min)

/-- `logWalletState` (lines 225–244), modelled as the `WalletLogEntry`
it constructs from the current wallet and holding. -/
def logWalletState (now : ℚ) (wallet : PaperWallet) (holding : CurrentHolding) :
    WalletLogEntry :=
  { timestamp := now
    solBalance := wallet.solBalance
    holding := holding
    tradesMade := wallet.tradesMade
    feesPaid := wallet.totalFeesPaid }

/-- `profitabilityPercent` (lines 246–251). -/
def profitabilityPercent (wallet : PaperWallet) : ℚ :=
  if wallet.tradesMade = 0 then
    0
  else
    ((wallet.profitableTrades : ℚ) / (wallet.tradesMade : ℚ)) * 100

/-! ### Scoring (`calculateScores`, lines 296–343)

The source computes a batch min and max for each of the five scored raw
metrics with one `math.Min`/`math.Max` fold each; `ScoreDim` indexes the
five dimensions so the ten folds can be written (and reasoned about)
uniformly. -/

inductive ScoreDim where
  | m5Change
  | h1Change
  | m5Volume
  | m5Ratio
  | liquidity
deriving DecidableEq

/-- The raw metric a score dimension normalizes. -/
def rawOf : ScoreDim → TokenInfo → ℚ
  | .m5Change, c => c.priceChangeM5
  | .h1Change, c => c.priceChangeH1
  | .m5Volume, c => c.volumeM5
  | .m5Ratio, c => c.m5BuySellRatio
  | .liquidity, c => c.liquidityUSD

/-- The normalized component a score dimension produces. -/
def normOf : ScoreDim → TokenInfo → ℚ
  | .m5Change, c => c.normM5Change
  | .h1Change, c => c.normH1Change
  | .m5Volume, c => c.normM5Volume
  | .m5Ratio, c => c.normM5BuySellRatio
  | .liquidity, c => c.normLiquidity

/-- `minX := candidates[0].X` then `minX = math.Min(minX, c.X)` over
`candidates[1:]` (lines 305–322). -/
def batchMin (d : ScoreDim) : List TokenInfo → ℚ
  | [] => 0
  | c :: cs => cs.foldl (fun m x => min m (rawOf d x)) (rawOf d c)

/-- `maxX := candidates[0].X` then `maxX = math.Max(maxX, c.X)` over
`candidates[1:]` (lines 305–322). -/
def batchMax (d : ScoreDim) : List TokenInfo → ℚ
  | [] => 0
  | c :: cs => cs.foldl (fun m x => max m (rawOf d x)) (rawOf d c)

/-- The per-candidate body of the scoring loop (lines 326–340): the five
normalized components are stored and the weighted score is computed from
the freshly stored components. -/
def scoreCandidate (minM5 maxM5 minH1 maxH1 minVol maxVol minRatio maxRatio
    minLiq maxLiq : ℚ) (c : TokenInfo) : TokenInfo :=
  { c with
    normM5Change := normalize c.priceChangeM5 minM5 maxM5
    normH1Change := normalize c.priceChangeH1 minH1 maxH1
    normM5Volume := normalize c.volumeM5 minVol maxVol
    normM5BuySellRatio := normalize c.m5BuySellRatio minRatio maxRatio
    normLiquidity := normalize c.liquidityUSD minLiq maxLiq
    score :=
      normalize c.priceChangeM5 minM5 maxM5 * wM5Change +
      normalize c.priceChangeH1 minH1 maxH1 * wH1Change +
      normalize c.volumeM5 minVol maxVol * wM5Volume +
      normalize c.m5BuySellRatio minRatio maxRatio * wM5BuySellRatio +
      normalize c.liquidityUSD minLiq maxLiq * wLiquidity }

/-- `calculateScores` (lines 296–343). -/
def calculateScores (candidates : List TokenInfo) : List TokenInfo :=
  if candidates.length < 2 then
    -- Assign default score if only one or zero candidates
    candidates.map fun c => { c with score := 0 }
  else
    candidates.map
      (scoreCandidate
        (batchMin .m5Change candidates) (batchMax .m5Change candidates)
        (batchMin .h1Change candidates) (batchMax .h1Change candidates)
        (batchMin .m5Volume candidates) (batchMax .m5Volume candidates)
        (batchMin .m5Ratio candidates) (batchMax .m5Ratio candidates)
        (batchMin .liquidity candidates) (batchMax .liquidity candidates))

/-! ### The scan cycle (`runScan`, lines 346–555)

`runScan` is modelled from the point its fetched pair list is in hand
(the HTTP fetch of step 1 is excluded plumbing; a fetch error makes the
cycle a no-op before any of the logic below runs).  `now` is the cycle's
wall-clock instant in epoch seconds. -/

/-- The log/side-effect trace of one cycle.  Constructors correspond to
the source's trade JSON writes, wallet JSON writes, and the `log.Printf`
calls of `runScan` that report decisions. -/
inductive Event where
  /-- A `TradeLogEntry` appended to trades.json (via `logTradeAction`). -/
  | trade (e : TradeLogEntry)
  /-- Line 406: held pair data not found in current scan; holding kept. -/
  | warnPairDataMissing
  /-- Line 473: holding retained, no exit trigger fired. -/
  | infoHolding
  /-- Line 504: balance below trade size + fee, BUY skipped. -/
  | infoInsufficientBalance
  /-- Line 540: top candidate below threshold or balance below trade size. -/
  | infoNoBuy
  /-- Line 544: no candidates after filtering and scoring. -/
  | infoNoCandidates
  /-- A `WalletLogEntry` appended to wallet_log.json (via `logWalletState`). -/
  | walletLog (e : WalletLogEntry)
deriving DecidableEq

/-- The per-pair filter of step 2 (lines 361–370): quote symbol, minimum
liquidity, minimum 5m volume, minimum age, positive parsed native price. -/
def eligible (now : ℚ) (pair : Pair) : Bool :=
  pair.quoteToken.symbol = "SOL" &&
  !(pair.liquidityUsd < minLiquidityUSD) &&
  !(pair.volumeM5 < minVolume5mUSD) &&
  -- createdAt.After(minTime) where minTime = now - minPairAgeHours hours
  !((pair.pairCreatedAt / 1000 : ℤ) > now - minPairAgeHours * 3600) &&
  (0 < parseFloat pair.priceNative (-1))

/-- The `TokenInfo` extraction of step 2 (lines 373–388). -/
def toTokenInfo (pair : Pair) : TokenInfo :=
  { pairAddress := pair.pairAddress
    baseTokenSymbol := pair.baseToken.symbol
    baseTokenAddr := pair.baseToken.address
    quoteTokenSymbol := pair.quoteToken.symbol
    quoteTokenAddr := pair.quoteToken.address
    pairCreatedAt := pair.pairCreatedAt / 1000
    priceNative := parseFloat pair.priceNative (-1)
    priceUSD := parseFloat pair.priceUsd 0
    liquidityUSD := pair.liquidityUsd
    priceChangeM5 := pair.priceChangeM5
    priceChangeH1 := pair.priceChangeH1
    volumeM5 := pair.volumeM5
    m5BuySellRatio := calculateBuySellRatio pair.txnsM5.buys pair.txnsM5.sells
    pairURL := pair.url }

/-- The filtered, extracted candidate list of one cycle (the source's
`candidates` slice; `currentPairData` holds the same records keyed by
pair address). -/
def eligibleInfos (now : ℚ) (pairs : List Pair) : List TokenInfo :=
  (pairs.filter (eligible now)).map toTokenInfo

/-- `currentPairData[addr]` lookup: the Go map is written in slice order,
so a duplicate address keeps the last write. -/
def findPair (currentPairData : List TokenInfo) (addr : String) :
    Option TokenInfo :=
  currentPairData.foldl
    (fun acc info => if info.pairAddress = addr then some info else acc) none

/-- Line 410: `holding.PeakPriceNative = math.Max(peak, current)`. -/
def updatePeak (holding : CurrentHolding) (currentPrice : ℚ) : CurrentHolding :=
  { holding with peakPriceNative := max holding.peakPriceNative currentPrice }

/-- The exit-trigger cascade (lines 414–427), evaluated on the holding
*after* the peak-price update.  First match wins. -/
def checkExit (holding : CurrentHolding) (currentData : TokenInfo) (now : ℚ) :
    Option ExitReason :=
  let liquidityThreshold := holding.entryLiquidityUSD * (1 - liquidityDropPercent)
  let trailingStopPrice := holding.peakPriceNative * (1 - trailingStopLossPercent)
  let takeProfitPrice := holding.entryPriceNative * takeProfitThreshold
  if currentData.liquidityUSD < liquidityThreshold then
    some .liquidityDrop
  else if currentData.priceNative ≤ trailingStopPrice then
    some .trailingStop
  else if currentData.priceNative ≥ takeProfitPrice then
    some .takeProfit
  else if currentData.priceChangeM5 < momentumFadeExitM5 ∧
      now - holding.entryTime > 5 * 60 then
    some .momentumFade
  else
    none

/-- The SELL execution block (lines 438–469): proceeds, fee, P&L, wallet
credit, counters, trade log entry, holding cleared. -/
def executeSell (wallet : PaperWallet) (holding : CurrentHolding)
    (sellPrice : ℚ) (reason : ExitReason) (now : ℚ) :
    PaperWallet × CurrentHolding × TradeLogEntry :=
  let solReceivedGross := holding.amountToken * sellPrice
  let feeAmount := solReceivedGross * simulatedFeePercent
  let solReceivedNet := solReceivedGross - feeAmount
  let initialBuyCostBasis := tradeSizeSOL
  let profitLoss := solReceivedNet - initialBuyCostBasis
  let wallet' := { wallet with
    solBalance := wallet.solBalance + solReceivedNet
    totalFeesPaid := wallet.totalFeesPaid + feeAmount
    tradesMade := wallet.tradesMade + 1
    profitableTrades :=
      wallet.profitableTrades + (if profitLoss > 0 then 1 else 0) }
  let tradeLog : TradeLogEntry :=
    { timestamp := now
      action := "SELL"
      symbol := holding.baseTokenSymbol
      pairAddress := holding.pairAddress
      solAmount := solReceivedGross
      tokenAmount := holding.amountToken
      priceNative := sellPrice
      feeSOL := feeAmount
      profitLossSOL := profitLoss
      reason := some reason }
  (wallet', { holding with active := false }, tradeLog)

/-- The BUY execution block (lines 498–536, past the balance check):
token amount, fee, wallet debit, fresh holding, trade log entry. -/
def executeBuy (wallet : PaperWallet) (topCandidate : TokenInfo) (now : ℚ) :
    PaperWallet × CurrentHolding × TradeLogEntry :=
  let entryPrice := topCandidate.priceNative
  let tokenAmountToBuy := tradeSizeSOL / entryPrice
  let feeAmount := tradeSizeSOL * simulatedFeePercent
  let solToSpend := tradeSizeSOL + feeAmount
  let wallet' := { wallet with
    solBalance := wallet.solBalance - solToSpend
    totalFeesPaid := wallet.totalFeesPaid + feeAmount }
  let holding' : CurrentHolding :=
    { active := true
      baseTokenSymbol := topCandidate.baseTokenSymbol
      baseTokenAddr := topCandidate.baseTokenAddr
      quoteTokenSymbol := topCandidate.quoteTokenSymbol
      quoteTokenAddr := topCandidate.quoteTokenAddr
      pairAddress := topCandidate.pairAddress
      amountToken := tokenAmountToBuy
      entryPriceNative := entryPrice
      entryTime := now
      peakPriceNative := entryPrice
      entryLiquidityUSD := topCandidate.liquidityUSD }
  let tradeLog : TradeLogEntry :=
    { timestamp := now
      action := "BUY"
      symbol := holding'.baseTokenSymbol
      pairAddress := holding'.pairAddress
      solAmount := tradeSizeSOL
      tokenAmount := holding'.amountToken
      priceNative := holding'.entryPriceNative
      feeSOL := feeAmount }
  (wallet', holding', tradeLog)

/-- Step 4, exit logic (lines 399–478).  Returns the updated state, the
events of this step, and the source's `walletUpdated` contribution. -/
def exitPhase (s : ScanState) (currentPairData : List TokenInfo) (now : ℚ) :
    ScanState × List Event × Bool :=
  if s.holding.active then
    match findPair currentPairData s.holding.pairAddress with
    | none => (s, [.warnPairDataMissing], false)
    | some currentData =>
      let holding₁ := updatePeak s.holding currentData.priceNative
      let sellPrice := currentData.priceNative
      match checkExit holding₁ currentData now with
      | some reason =>
        let r := executeSell s.wallet holding₁ sellPrice reason now
        ({ wallet := r.1, holding := r.2.1 }, [.trade r.2.2], true)
      | none => ({ s with holding := holding₁ }, [.infoHolding], false)
  else
    (s, [], false)

/-- The `sort.Slice(scoredCandidates, ...Score > ...Score)` call of line
484, modelled as an insertion sort on the same key.  `sort.Slice`
guarantees only an ordering by the comparator — it is documented as NOT
stable, so the model's tie behaviour is not a property of the source
(settled separately with the claim about ranking). -/
def insertByScore (c : TokenInfo) : List TokenInfo → List TokenInfo
  | [] => [c]
  | d :: ds => if d.score < c.score then c :: d :: ds else d :: insertByScore c ds

def sortByScoreDesc (candidates : List TokenInfo) : List TokenInfo :=
  candidates.foldr insertByScore []

/-- Step 5, entry logic (lines 481–545).  Returns the updated state, the
events of this step, and the source's `walletUpdated` contribution. -/
def entryPhase (s : ScanState) (scoredCandidates : List TokenInfo) (now : ℚ) :
    ScanState × List Event × Bool :=
  if !s.holding.active && !scoredCandidates.isEmpty then
    let sorted := sortByScoreDesc scoredCandidates
    let topCandidate := sorted.headD defaultTokenInfo
    if topCandidate.score ≥ minScoreToEnter ∧
        s.wallet.solBalance ≥ tradeSizeSOL then
      let feeAmount := tradeSizeSOL * simulatedFeePercent
      let solToSpend := tradeSizeSOL + feeAmount
      if s.wallet.solBalance < solToSpend then
        (s, [.infoInsufficientBalance], false)
      else
        let r := executeBuy s.wallet topCandidate now
        ({ wallet := r.1, holding := r.2.1 }, [.trade r.2.2], true)
    else
      (s, [.infoNoBuy], false)
  else if scoredCandidates.isEmpty && !s.holding.active then
    (s, [.infoNoCandidates], false)
  else
    (s, [], false)

/-- One full scan cycle (lines 346–555): filter, score, exit logic, entry
logic, wallet logging if a trade updated the wallet. -/
def runScan (s : ScanState) (pairs : List Pair) (now : ℚ) :
    ScanState × List Event :=
  let infos := eligibleInfos now pairs
  let scoredCandidates := calculateScores infos
  let r₁ := exitPhase s infos now
  let r₂ := entryPhase r₁.1 scoredCandidates now
  let walletUpdated := r₁.2.2 || r₂.2.2
  let evLog :=
    if walletUpdated then
      [Event.walletLog (logWalletState now r₂.1.wallet r₂.1.holding)]
    else []
  (r₂.1, r₁.2.1 ++ r₂.2.1 ++ evLog)

/-- The actions ("BUY"/"SELL") of the trade records in an event trace. -/
def tradeActions (events : List Event) : List String :=
  events.filterMap fun e =>
    match e with
    | .trade t => some t.action
    | _ => none

/-! ### Concrete cycle inputs used by the witnesses and counterexamples -/

/-- A wallet as initialized by `initPaperTrading` (lines 143–155). -/
def initWallet : PaperWallet :=
  { solBalance := 10, initialSOL := 10, tradesMade := 0
    profitableTrades := 0, totalFeesPaid := 0 }

/-- A held position on pair `"PAIRX"`: entered at native price 1 with
10000 USD liquidity, peak still at the entry price. -/
def exHolding : CurrentHolding :=
  { active := true, baseTokenSymbol := "XTOK", baseTokenAddr := "xaddr"
    quoteTokenSymbol := "SOL", quoteTokenAddr := "saddr"
    pairAddress := "PAIRX", amountToken := 1, entryPriceNative := 1
    entryTime := 0, entryLiquidityUSD := 10000, peakPriceNative := 1 }

def exState : ScanState := { wallet := initWallet, holding := exHolding }

/-- Snapshot of the held pair: eligible, but its liquidity has collapsed
from 10000 to 2000 USD (a 30%+ drop), so the liquidity-drop exit fires. -/
def pairX : Pair :=
  { pairAddress := "PAIRX"
    baseToken := { address := "xaddr", name := "XTok", symbol := "XTOK" }
    quoteToken := { address := "saddr", name := "Solana", symbol := "SOL" }
    priceNative := some 1, priceUsd := some 150
    txnsM5 := { buys := 5, sells := 5 }
    volumeM5 := 600, priceChangeM5 := 0, priceChangeH1 := 0
    liquidityUsd := 2000, pairCreatedAt := 0, url := "u" }

/-- A second eligible snapshot that dominates every scored metric, so it
normalizes to 1.0 everywhere and reaches composite score 1.0 ≥ 0.65. -/
def pairY : Pair :=
  { pairAddress := "PAIRY"
    baseToken := { address := "yaddr", name := "YTok", symbol := "YTOK" }
    quoteToken := { address := "saddr", name := "Solana", symbol := "SOL" }
    priceNative := some 2, priceUsd := some 300
    txnsM5 := { buys := 10, sells := 0 }
    volumeM5 := 1000, priceChangeM5 := 10, priceChangeH1 := 5
    liquidityUsd := 9000, pairCreatedAt := 0, url := "u" }

def exPairs : List Pair := [pairX, pairY]

/-- Cycle instant: both pairs were created at epoch 0, over an hour ago. -/
def exNow : ℚ := 10000

/-! ### Structural lemmas about the two phases of a cycle -/

theorem tradeActions_append (a b : List Event) :
    tradeActions (a ++ b) = tradeActions a ++ tradeActions b :=
  List.filterMap_append ..

theorem tradeActions_walletLogBlock (b : Bool) (e : WalletLogEntry) :
    tradeActions (if b then [Event.walletLog e] else []) = [] := by
  cases b <;> simp [tradeActions]

/-- Case analysis on the exit step: either no wallet update happened, no
trade record was emitted and the Active flag is preserved; or a wallet
update happened and exactly one SELL trade record was emitted. -/
theorem exitPhase_spec (s : ScanState) (cpd : List TokenInfo) (now : ℚ) :
    ((exitPhase s cpd now).2.2 = false ∧
      tradeActions (exitPhase s cpd now).2.1 = [] ∧
      (exitPhase s cpd now).1.holding.active = s.holding.active) ∨
    ((exitPhase s cpd now).2.2 = true ∧
      tradeActions (exitPhase s cpd now).2.1 = ["SELL"]) := by
  unfold exitPhase
  split
  · split
    · left; simp [tradeActions]
    · dsimp only
      split
      · right; simp [tradeActions, executeSell]
      · left; simp [tradeActions, updatePeak]
  · left; simp [tradeActions]

/-- With no position held, the exit step is a no-op. -/
theorem exitPhase_inactive (s : ScanState) (cpd : List TokenInfo) (now : ℚ)
    (h : s.holding.active = false) : exitPhase s cpd now = (s, [], false) := by
  unfold exitPhase
  rw [h]
  simp

/-- Case analysis on the entry step: either no wallet update happened, no
trade record was emitted and the whole state is unchanged; or a wallet
update happened from the idle state and exactly one BUY trade record was
emitted. -/
theorem entryPhase_spec (s : ScanState) (scored : List TokenInfo) (now : ℚ) :
    ((entryPhase s scored now).2.2 = false ∧
      tradeActions (entryPhase s scored now).2.1 = [] ∧
      (entryPhase s scored now).1 = s) ∨
    ((entryPhase s scored now).2.2 = true ∧
      tradeActions (entryPhase s scored now).2.1 = ["BUY"] ∧
      s.holding.active = false) := by
  unfold entryPhase
  split
  · next hg =>
    dsimp only
    split
    · split
      · left; simp [tradeActions]
      · right
        refine ⟨by simp, by simp [tradeActions, executeBuy], ?_⟩
        simp only [Bool.and_eq_true, Bool.not_eq_true'] at hg
        exact hg.1
    · left; simp [tradeActions]
  · split
    · left; simp [tradeActions]
    · left; simp [tradeActions]

/-- With a position still held after the exit step, the entry step is a
no-op. -/
theorem entryPhase_active (s : ScanState) (scored : List TokenInfo) (now : ℚ)
    (h : s.holding.active = true) : entryPhase s scored now = (s, [], false) := by
  unfold entryPhase
  rw [h]
  simp

/-! ### Claim theorems -/

/-- C3: for every held position and every snapshot for its pair that
simultaneously satisfies the liquidity-drop condition and the take-profit
condition, the exit reason is liquidity drop, never take profit; the four
exit triggers are checked in the fixed order liquidity drop, trailing
stop, take profit, momentum fade, and the first match wins. -/
theorem C3_exit_priority (h : CurrentHolding) (c : TokenInfo) (now : ℚ) :
    (c.liquidityUSD < h.entryLiquidityUSD * (1 - liquidityDropPercent) →
      checkExit h c now = some ExitReason.liquidityDrop) ∧
    (checkExit h c now = some ExitReason.trailingStop ↔
      ¬c.liquidityUSD < h.entryLiquidityUSD * (1 - liquidityDropPercent) ∧
      c.priceNative ≤ h.peakPriceNative * (1 - trailingStopLossPercent)) ∧
    (checkExit h c now = some ExitReason.takeProfit ↔
      ¬c.liquidityUSD < h.entryLiquidityUSD * (1 - liquidityDropPercent) ∧
      ¬c.priceNative ≤ h.peakPriceNative * (1 - trailingStopLossPercent) ∧
      c.priceNative ≥ h.entryPriceNative * takeProfitThreshold) ∧
    (checkExit h c now = some ExitReason.momentumFade ↔
      ¬c.liquidityUSD < h.entryLiquidityUSD * (1 - liquidityDropPercent) ∧
      ¬c.priceNative ≤ h.peakPriceNative * (1 - trailingStopLossPercent) ∧
      ¬c.priceNative ≥ h.entryPriceNative * takeProfitThreshold ∧
      (c.priceChangeM5 < momentumFadeExitM5 ∧ now - h.entryTime > 5 * 60)) := by
  by_cases h1 : c.liquidityUSD < h.entryLiquidityUSD * (1 - liquidityDropPercent) <;>
  by_cases h2 : c.priceNative ≤ h.peakPriceNative * (1 - trailingStopLossPercent) <;>
  by_cases h3 : c.priceNative ≥ h.entryPriceNative * takeProfitThreshold <;>
  by_cases h4 : c.priceChangeM5 < momentumFadeExitM5 ∧ now - h.entryTime > 5 * 60 <;>
  simp [checkExit, h1, h2, h3, h4]

/-- Holding and snapshot used by the C3 witness: liquidity has dropped
below 70% of the entry liquidity AND the price is above the take-profit
multiple at the same time. -/
def c3Holding : CurrentHolding :=
  { active := true, pairAddress := "PAIRC3", amountToken := 1
    entryPriceNative := 1, entryTime := 0, entryLiquidityUSD := 10000
    peakPriceNative := 1 }

def c3Data : TokenInfo :=
  { defaultTokenInfo with
    pairAddress := "PAIRC3", priceNative := 2, liquidityUSD := 2000
    priceChangeM5 := 1 }

/-- Witness for C3 at a concrete snapshot satisfying both the
liquidity-drop and take-profit conditions. -/
theorem C3_exit_priority_witness :
    checkExit c3Holding c3Data 0 = some ExitReason.liquidityDrop :=
  (C3_exit_priority c3Holding c3Data 0).1
    (by norm_num [c3Holding, c3Data, defaultTokenInfo, liquidityDropPercent])

/-- C6: while held with pair data present (and no liquidity-drop exit),
the trailing stop triggers exactly when the current native price is at or
below the peak price observed since entry (including this cycle's peak
update) times one minus the trailing-stop fraction — the threshold
references the peak, not the entry price. -/
theorem C6_trailing_stop_references_peak (h : CurrentHolding) (c : TokenInfo)
    (now : ℚ)
    (hliq : ¬c.liquidityUSD < h.entryLiquidityUSD * (1 - liquidityDropPercent)) :
    checkExit (updatePeak h c.priceNative) c now = some ExitReason.trailingStop ↔
      c.priceNative ≤
        max h.peakPriceNative c.priceNative * (1 - trailingStopLossPercent) := by
  by_cases h2 : c.priceNative ≤
      max h.peakPriceNative c.priceNative * (1 - trailingStopLossPercent) <;>
  by_cases h3 : c.priceNative ≥ h.entryPriceNative * takeProfitThreshold <;>
  by_cases h4 : c.priceChangeM5 < momentumFadeExitM5 ∧ now - h.entryTime > 5 * 60 <;>
  simp [checkExit, updatePeak, hliq, h2, h3, h4]

/-- Holding and snapshot of the spec's trailing-stop scenario: entry price
1.0, peak 1.2, fraction 3%; at current price 1.164 the trailing stop fires
(entry price × 0.97 would be 0.97, far below). -/
def c6Holding : CurrentHolding :=
  { active := true, pairAddress := "PAIRC6", amountToken := 1
    entryPriceNative := 1, entryTime := 0, entryLiquidityUSD := 1000
    peakPriceNative := 12 / 10 }

def c6Data : TokenInfo :=
  { defaultTokenInfo with
    pairAddress := "PAIRC6", priceNative := 1164 / 1000, liquidityUSD := 1000
    priceChangeM5 := 1 }

/-- Witness for C6: at price 1.164 = 1.2 × 0.97 the trailing stop fires. -/
theorem C6_trailing_stop_references_peak_witness :
    checkExit (updatePeak c6Holding c6Data.priceNative) c6Data 0 =
      some ExitReason.trailingStop :=
  (C6_trailing_stop_references_peak c6Holding c6Data 0
    (by norm_num [c6Holding, c6Data, defaultTokenInfo, liquidityDropPercent])).mpr
    (by
      rw [show max c6Holding.peakPriceNative c6Data.priceNative =
          c6Holding.peakPriceNative from
        max_eq_left (by norm_num [c6Holding, c6Data, defaultTokenInfo])]
      norm_num [c6Holding, c6Data, defaultTokenInfo, trailingStopLossPercent])

/-- C8: the buy/sell ratio is total on non-negative transaction counts:
0.5 when no transactions exist, buys/(buys+sells) otherwise with a
non-zero denominator, and the result always lies in [0,1]. -/
theorem C8_buy_sell_ratio_total (buys sells : ℤ) (hb : 0 ≤ buys)
    (hs : 0 ≤ sells) :
    (buys + sells = 0 → calculateBuySellRatio buys sells = 1 / 2) ∧
    (buys + sells ≠ 0 →
      calculateBuySellRatio buys sells = (buys : ℚ) / ((buys : ℚ) + (sells : ℚ)) ∧
      ((buys : ℚ) + (sells : ℚ) ≠ 0)) ∧
    0 ≤ calculateBuySellRatio buys sells ∧
    calculateBuySellRatio buys sells ≤ 1 := by
  unfold calculateBuySellRatio
  rcases eq_or_lt_of_le (by omega : (0:ℤ) ≤ buys + sells) with h | h
  · rw [if_pos h.symm]
    exact ⟨fun _ => rfl, fun hne => absurd h.symm hne, by norm_num, by norm_num⟩
  · rw [if_neg (by omega)]
    have hq : (0 : ℚ) < (buys : ℚ) + (sells : ℚ) := by exact_mod_cast h
    have hbq : (0 : ℚ) ≤ (buys : ℚ) := by exact_mod_cast hb
    have hsq : (0 : ℚ) ≤ (sells : ℚ) := by exact_mod_cast hs
    refine ⟨fun he => absurd he (by omega), fun _ => ⟨by push_cast; ring, ne_of_gt hq⟩,
      ?_, ?_⟩
    · rw [show ((buys + sells : ℤ) : ℚ) = (buys : ℚ) + (sells : ℚ) by push_cast; ring]
      exact div_nonneg hbq (le_of_lt hq)
    · rw [show ((buys + sells : ℤ) : ℚ) = (buys : ℚ) + (sells : ℚ) by push_cast; ring]
      rw [div_le_one hq]
      linarith

/-- Witness for C8 at 3 buys, 1 sell. -/
theorem C8_buy_sell_ratio_total_witness :
    0 ≤ calculateBuySellRatio 3 1 ∧ calculateBuySellRatio 3 1 ≤ 1 :=
  (C8_buy_sell_ratio_total 3 1 (by norm_num) (by norm_num)).2.2

/-- C9: a SELL flips only the Active flag of the holding; the pair
address, token amount, entry price, entry time, entry liquidity and peak
price all keep their pre-sell values, and the holding embedded in a
wallet log entry built from the post-sell holding carries exactly those
stale values. -/
theorem C9_sell_frame (w : PaperWallet) (h : CurrentHolding) (p : ℚ)
    (r : ExitReason) (now t : ℚ) (w₂ : PaperWallet) :
    (executeSell w h p r now).2.1.active = false ∧
    (executeSell w h p r now).2.1.pairAddress = h.pairAddress ∧
    (executeSell w h p r now).2.1.amountToken = h.amountToken ∧
    (executeSell w h p r now).2.1.entryPriceNative = h.entryPriceNative ∧
    (executeSell w h p r now).2.1.entryTime = h.entryTime ∧
    (executeSell w h p r now).2.1.entryLiquidityUSD = h.entryLiquidityUSD ∧
    (executeSell w h p r now).2.1.peakPriceNative = h.peakPriceNative ∧
    (executeSell w h p r now).2.1.baseTokenSymbol = h.baseTokenSymbol ∧
    (executeSell w h p r now).2.1.baseTokenAddr = h.baseTokenAddr ∧
    (executeSell w h p r now).2.1.quoteTokenSymbol = h.quoteTokenSymbol ∧
    (executeSell w h p r now).2.1.quoteTokenAddr = h.quoteTokenAddr ∧
    (logWalletState t w₂ (executeSell w h p r now).2.1).holding =
      (executeSell w h p r now).2.1 := by
  unfold executeSell logWalletState
  exact ⟨rfl, rfl, rfl, rfl, rfl, rfl, rfl, rfl, rfl, rfl, rfl, rfl⟩

/-- C10: the profitable-trade percentage is total: 0 when no trades were
made, else (profitable / made) × 100 with a non-zero denominator. -/
theorem C10_profitability_total (w : PaperWallet) :
    (w.tradesMade = 0 → profitabilityPercent w = 0) ∧
    (w.tradesMade ≠ 0 →
      profitabilityPercent w =
        ((w.profitableTrades : ℚ) / (w.tradesMade : ℚ)) * 100 ∧
      ((w.tradesMade : ℚ) ≠ 0)) := by
  unfold profitabilityPercent
  constructor
  · intro h
    rw [if_pos h]
  · intro h
    rw [if_neg h]
    exact ⟨rfl, by exact_mod_cast h⟩

/-- Wallet used by the C10 witness: 4 trades made, 1 profitable. -/
def c10Wallet : PaperWallet :=
  { solBalance := 5, initialSOL := 10, tradesMade := 4, profitableTrades := 1
    totalFeesPaid := 1 / 100 }

/-- Witness for C10 on a wallet with 4 trades made. -/
theorem C10_profitability_total_witness :
    profitabilityPercent c10Wallet =
      ((c10Wallet.profitableTrades : ℚ) / (c10Wallet.tradesMade : ℚ)) * 100 ∧
    ((c10Wallet.tradesMade : ℚ) ≠ 0) :=
  (C10_profitability_total c10Wallet).2 (by decide)

/-- Wallet arithmetic of the entry step: either nothing happened and the
state is unchanged, or a BUY executed, in which case the pre-state balance
covered trade size plus fee and the balance was debited by exactly that
amount. -/
theorem entryPhase_wallet_spec (s : ScanState) (scored : List TokenInfo)
    (now : ℚ) :
    ((entryPhase s scored now).2.2 = false ∧ (entryPhase s scored now).1 = s) ∨
    ((entryPhase s scored now).2.2 = true ∧
      tradeSizeSOL + tradeSizeSOL * simulatedFeePercent ≤ s.wallet.solBalance ∧
      (entryPhase s scored now).1.wallet.solBalance =
        s.wallet.solBalance - (tradeSizeSOL + tradeSizeSOL * simulatedFeePercent)) := by
  unfold entryPhase
  split
  · dsimp only
    split
    · split
      · left; exact ⟨rfl, rfl⟩
      · next hnlt =>
        right
        exact ⟨rfl, le_of_not_lt hnlt, by simp [executeBuy]⟩
    · left; exact ⟨rfl, rfl⟩
  · split
    · left; exact ⟨rfl, rfl⟩
    · left; exact ⟨rfl, rfl⟩

/-- C4: a BUY executes only when the balance covers trade size T plus the
estimated fee T×f, and then the balance decreases by exactly T×(1+f);
a SELL with gross proceeds G credits the balance by exactly G×(1−f);
when the balance precondition fails, no transition occurs and the state
is unchanged. -/
theorem C4_wallet_arithmetic (s : ScanState) (scored : List TokenInfo)
    (now : ℚ) (w : PaperWallet) (h : CurrentHolding) (p : ℚ) (r : ExitReason)
    (t : ℚ) :
    ((entryPhase s scored now).2.2 = true →
      tradeSizeSOL + tradeSizeSOL * simulatedFeePercent ≤ s.wallet.solBalance ∧
      (entryPhase s scored now).1.wallet.solBalance =
        s.wallet.solBalance - tradeSizeSOL * (1 + simulatedFeePercent)) ∧
    (s.wallet.solBalance < tradeSizeSOL + tradeSizeSOL * simulatedFeePercent →
      (entryPhase s scored now).1 = s ∧ (entryPhase s scored now).2.2 = false) ∧
    ((executeSell w h p r t).1.solBalance =
      w.solBalance + h.amountToken * p * (1 - simulatedFeePercent)) := by
  refine ⟨?_, ?_, ?_⟩
  · intro hb
    rcases entryPhase_wallet_spec s scored now with ⟨hf, _⟩ | ⟨_, hle, heq⟩
    · rw [hb] at hf; cases hf
    · exact ⟨hle, by rw [heq]; ring_nf⟩
  · intro hlt
    rcases entryPhase_wallet_spec s scored now with ⟨hf, hst⟩ | ⟨_, hle, _⟩
    · exact ⟨hst, hf⟩
    · exact absurd hle (not_le_of_lt hlt)
  · unfold executeSell
    dsimp only
    ring

/-- The idle state with the freshly initialized wallet. -/
def idleState : ScanState :=
  { wallet := initWallet, holding := { active := false } }

/-- Top candidate handed to the entry step by the C4 witness: composite
score 1 ≥ the 0.65 threshold, native price 2. -/
def c4Top : TokenInfo :=
  { defaultTokenInfo with
    pairAddress := "PAIRC4", baseTokenSymbol := "CTOK", priceNative := 2
    liquidityUSD := 5000, score := 1 }

/-- Witness for C4: the spec scenario — balance 10 SOL, trade size 1 SOL,
fee 0.3% — debits exactly 1.003 SOL. -/
theorem C4_wallet_arithmetic_witness :
    tradeSizeSOL + tradeSizeSOL * simulatedFeePercent ≤
      idleState.wallet.solBalance ∧
    (entryPhase idleState [c4Top] 0).1.wallet.solBalance =
      idleState.wallet.solBalance - tradeSizeSOL * (1 + simulatedFeePercent) :=
  (C4_wallet_arithmetic idleState [c4Top] 0 initWallet c3Holding 1
      ExitReason.takeProfit 0).1
    (by norm_num [entryPhase, sortByScoreDesc, insertByScore, executeBuy,
      idleState, initWallet, c4Top, defaultTokenInfo, minScoreToEnter,
      tradeSizeSOL, simulatedFeePercent])

/-- The trade actions of one cycle, decomposed by phase: the wallet-log
block contributes none. -/
theorem runScan_tradeActions (s : ScanState) (pairs : List Pair) (now : ℚ) :
    tradeActions (runScan s pairs now).2 =
      tradeActions (exitPhase s (eligibleInfos now pairs) now).2.1 ++
      tradeActions (entryPhase (exitPhase s (eligibleInfos now pairs) now).1
        (calculateScores (eligibleInfos now pairs)) now).2.1 := by
  unfold runScan
  dsimp only
  rw [tradeActions_append, tradeActions_append, tradeActions_walletLogBlock,
    List.append_nil]

/-- C1 (amended): per cycle the trade sequence is a subsequence of
[SELL, BUY] — at most one SELL and at most one BUY, a SELL never after a
BUY; a cycle that starts idle never sells; a BUY in a cycle that started
with a held position can only follow that cycle's SELL.  (The original
claim — that no single cycle executes both a SELL and a subsequent BUY —
is refuted by the counterexample: entry is gated on the holding state
after exit processing, not at cycle start.) -/
theorem C1_cycle_trade_sequence (s : ScanState) (pairs : List Pair) (now : ℚ) :
    (tradeActions (runScan s pairs now).2).Sublist ["SELL", "BUY"] ∧
    (s.holding.active = false → "SELL" ∉ tradeActions (runScan s pairs now).2) ∧
    (s.holding.active = true → "BUY" ∈ tradeActions (runScan s pairs now).2 →
      "SELL" ∈ tradeActions (runScan s pairs now).2) := by
  have hS : (["SELL"] : List String).Sublist ["SELL", "BUY"] :=
    List.Sublist.cons₂ _ (List.nil_sublist _)
  have hB : (["BUY"] : List String).Sublist ["SELL", "BUY"] :=
    List.Sublist.cons _ (List.Sublist.refl _)
  rcases exitPhase_spec s (eligibleInfos now pairs) now with
      ⟨hf₁, ht₁, ha₁⟩ | ⟨hf₁, ht₁⟩ <;>
    rcases entryPhase_spec (exitPhase s (eligibleInfos now pairs) now).1
        (calculateScores (eligibleInfos now pairs)) now with
      ⟨hf₂, ht₂, _⟩ | ⟨hf₂, ht₂, ha₂⟩ <;>
    rw [runScan_tradeActions, ht₁, ht₂]
  · exact ⟨List.nil_sublist _, fun _ => by simp, fun _ hmem => by simp at hmem⟩
  · refine ⟨by simp, fun _ => by decide, fun hact hmem => ?_⟩
    rw [ha₁] at ha₂
    rw [hact] at ha₂
    cases ha₂
  · refine ⟨by simp, fun hidle => ?_, fun _ _ => by decide⟩
    rw [exitPhase_inactive s (eligibleInfos now pairs) now hidle] at hf₁
    cases hf₁
  · refine ⟨List.Sublist.refl _, fun hidle => ?_, fun _ _ => by decide⟩
    rw [exitPhase_inactive s (eligibleInfos now pairs) now hidle] at hf₁
    cases hf₁

/-- Counterexample to C1 as stated: a concrete cycle that starts with a
held position, executes a SELL (liquidity drop) and then a BUY of the
cycle's top candidate, because the entry step sees the already-cleared
holding. -/
theorem C1_sell_then_buy_counterexample :
    exState.holding.active = true ∧
    tradeActions (runScan exState exPairs exNow).2 = ["SELL", "BUY"] := by
  refine ⟨rfl, ?_⟩
  have h1 : eligibleInfos exNow exPairs = [toTokenInfo pairX, toTokenInfo pairY] := by
    norm_num [eligibleInfos, eligible, exPairs, pairX, pairY, exNow, parseFloat,
      minLiquidityUSD, minVolume5mUSD, minPairAgeHours]
  rw [runScan, h1]
  norm_num +decide [toTokenInfo, parseFloat, calculateBuySellRatio,
    calculateScores, batchMin, batchMax, rawOf, scoreCandidate,
    Paperstrat.normalize, exitPhase, findPair, updatePeak, checkExit,
    executeSell, entryPhase, sortByScoreDesc, insertByScore, executeBuy,
    logWalletState, tradeActions, exState, initWallet, exHolding, pairX, pairY,
    tradeSizeSOL, simulatedFeePercent, wM5Change, wH1Change, wM5Volume,
    wM5BuySellRatio, wLiquidity, minScoreToEnter, takeProfitThreshold,
    trailingStopLossPercent, momentumFadeExitM5, liquidityDropPercent,
    defaultTokenInfo, exNow]

/-- Witness for the amended C1 at a concrete idle cycle: no SELL occurs. -/
theorem C1_cycle_trade_sequence_witness :
    "SELL" ∉ tradeActions (runScan idleState [] 0).2 :=
  (C1_cycle_trade_sequence idleState [] 0).2.1 rfl

/-- C7: when a position is held but its pair is absent from the cycle's
filtered batch, the cycle changes nothing — holding (peak included) and
wallet are untouched, no exit is evaluated, no trade or wallet log is
written — and the only effect is the data-missing warning. -/
theorem C7_missing_pair_soft_skip (s : ScanState) (pairs : List Pair)
    (now : ℚ) (hActive : s.holding.active = true)
    (hMissing : findPair (eligibleInfos now pairs) s.holding.pairAddress = none) :
    runScan s pairs now = (s, [Event.warnPairDataMissing]) := by
  have h₁ : exitPhase s (eligibleInfos now pairs) now =
      (s, [Event.warnPairDataMissing], false) := by
    unfold exitPhase
    rw [hActive, hMissing]
    simp
  unfold runScan
  dsimp only
  rw [h₁]
  rw [entryPhase_active s (calculateScores (eligibleInfos now pairs)) now hActive]
  simp

/-- Witness for C7: a held position while the fetched batch is empty. -/
theorem C7_missing_pair_soft_skip_witness :
    runScan exState [] exNow = (exState, [Event.warnPairDataMissing]) :=
  C7_missing_pair_soft_skip exState [] exNow rfl rfl

/-! ### Min/max fold lemmas for the normalization claim -/

theorem foldl_min_le_init (f : TokenInfo → ℚ) (l : List TokenInfo) (a : ℚ) :
    l.foldl (fun m y => min m (f y)) a ≤ a := by
  induction l generalizing a with
  | nil => simp
  | cons c cs ih =>
    rw [List.foldl_cons]
    exact le_trans (ih (min a (f c))) (min_le_left _ _)

theorem foldl_min_le_of_mem (f : TokenInfo → ℚ) (l : List TokenInfo) (a : ℚ)
    (x : TokenInfo) (hx : x ∈ l) :
    l.foldl (fun m y => min m (f y)) a ≤ f x := by
  induction l generalizing a with
  | nil => cases hx
  | cons c cs ih =>
    rw [List.foldl_cons]
    rcases List.mem_cons.mp hx with h | h
    · subst h
      exact le_trans (foldl_min_le_init f cs _) (min_le_right _ _)
    · exact ih _ h

theorem foldl_max_init_le (f : TokenInfo → ℚ) (l : List TokenInfo) (a : ℚ) :
    a ≤ l.foldl (fun m y => max m (f y)) a := by
  induction l generalizing a with
  | nil => simp
  | cons c cs ih =>
    rw [List.foldl_cons]
    exact le_trans (le_max_left _ _) (ih (max a (f c)))

theorem foldl_max_le_of_mem (f : TokenInfo → ℚ) (l : List TokenInfo) (a : ℚ)
    (x : TokenInfo) (hx : x ∈ l) :
    f x ≤ l.foldl (fun m y => max m (f y)) a := by
  induction l generalizing a with
  | nil => cases hx
  | cons c cs ih =>
    rw [List.foldl_cons]
    rcases List.mem_cons.mp hx with h | h
    · subst h
      exact le_trans (le_max_right _ _) (foldl_max_init_le f cs _)
    · exact ih _ h

theorem batchMin_le_of_mem (d : ScoreDim) (cs : List TokenInfo)
    (c : TokenInfo) (hc : c ∈ cs) : batchMin d cs ≤ rawOf d c := by
  cases cs with
  | nil => cases hc
  | cons c₀ rest =>
    rcases List.mem_cons.mp hc with h | h
    · subst h
      exact foldl_min_le_init _ _ _
    · exact foldl_min_le_of_mem _ _ _ _ h

theorem le_batchMax_of_mem (d : ScoreDim) (cs : List TokenInfo)
    (c : TokenInfo) (hc : c ∈ cs) : rawOf d c ≤ batchMax d cs := by
  cases cs with
  | nil => cases hc
  | cons c₀ rest =>
    rcases List.mem_cons.mp hc with h | h
    · subst h
      exact foldl_max_init_le _ _ _
    · exact foldl_max_le_of_mem _ _ _ _ h

/-- The four facts the normalization claim asserts about one component,
for any value `v` lying between the batch bounds `lo ≤ v ≤ hi`. -/
theorem normalize_component_core (lo hi v : ℚ) (h1 : lo ≤ v) (h2 : v ≤ hi) :
    (0 ≤ normalize v lo hi ∧ normalize v lo hi ≤ 1) ∧
    (v = hi → lo ≠ hi → normalize v lo hi = 1) ∧
    (lo = hi → normalize v lo hi = 0) ∧
    (v = lo → normalize v lo hi = 0) := by
  unfold normalize
  by_cases hd : hi - lo = 0
  · rw [if_pos hd]
    refine ⟨by norm_num, fun _ hne => absurd (by linarith) hne, fun _ => rfl,
      fun _ => rfl⟩
  · rw [if_neg hd]
    have hlt : 0 < hi - lo :=
      lt_of_le_of_ne (by linarith) (fun he => hd he.symm)
    refine ⟨⟨div_nonneg (by linarith) (le_of_lt hlt), ?_⟩, ?_, ?_, ?_⟩
    · rw [div_le_one hlt]
      linarith
    · intro hv _
      rw [hv]
      exact div_self hd
    · intro heq
      exact absurd (by linarith) hd
    · intro hv
      rw [hv]
      simp

/-- Membership in the scored output, for a batch large enough to be
normalized: every output element is the scoring-loop image of an input
element. -/
theorem calculateScores_mem (cs : List TokenInfo) (h2 : ¬cs.length < 2)
    (c : TokenInfo) (hc : c ∈ calculateScores cs) :
    ∃ c₀ ∈ cs, c =
      scoreCandidate
        (batchMin .m5Change cs) (batchMax .m5Change cs)
        (batchMin .h1Change cs) (batchMax .h1Change cs)
        (batchMin .m5Volume cs) (batchMax .m5Volume cs)
        (batchMin .m5Ratio cs) (batchMax .m5Ratio cs)
        (batchMin .liquidity cs) (batchMax .liquidity cs) c₀ := by
  unfold calculateScores at hc
  rw [if_neg h2] at hc
  obtain ⟨c₀, hc₀, rfl⟩ := List.mem_map.mp hc
  exact ⟨c₀, hc₀, rfl⟩

/-- The scoring loop does not change the raw metrics. -/
theorem rawOf_scoreCandidate (d : ScoreDim)
    (m1 M1 m2 M2 m3 M3 m4 M4 m5 M5 : ℚ) (c : TokenInfo) :
    rawOf d (scoreCandidate m1 M1 m2 M2 m3 M3 m4 M4 m5 M5 c) = rawOf d c := by
  cases d <;> rfl

/-- C5: in every batch of at least 2 candidates, each of the five
normalized components of every scored candidate lies in [0,1]; a
candidate whose raw metric equals the batch maximum gets component
exactly 1 when the batch has spread; the component is defined as 0 in
the degenerate max = min batch; a candidate at the batch minimum gets
exactly 0. -/
theorem C5_minmax_normalization (cs : List TokenInfo) (hlen : 2 ≤ cs.length)
    (d : ScoreDim) (c : TokenInfo) (hc : c ∈ calculateScores cs) :
    (0 ≤ normOf d c ∧ normOf d c ≤ 1) ∧
    (rawOf d c = batchMax d cs → batchMin d cs ≠ batchMax d cs →
      normOf d c = 1) ∧
    (batchMin d cs = batchMax d cs → normOf d c = 0) ∧
    (rawOf d c = batchMin d cs → normOf d c = 0) := by
  obtain ⟨c₀, hc₀, rfl⟩ := calculateScores_mem cs (by omega) c hc
  have hmin := batchMin_le_of_mem d cs c₀ hc₀
  have hmax := le_batchMax_of_mem d cs c₀ hc₀
  rw [rawOf_scoreCandidate]
  cases d <;>
    simp only [rawOf, normOf, scoreCandidate] at hmin hmax ⊢ <;>
    exact normalize_component_core _ _ _ hmin hmax

/-- The two-candidate batch of the C5 witness: the second candidate has
the larger 5-minute change (raw 10 vs −2); every other metric is equal
across the batch (degenerate per-dimension, normalizing to 0). -/
def c5A : TokenInfo :=
  { defaultTokenInfo with
    pairAddress := "PAIRA", priceNative := 1, liquidityUSD := 5000
    priceChangeM5 := -2, priceChangeH1 := 3, volumeM5 := 700
    m5BuySellRatio := 1 / 2 }

def c5B : TokenInfo :=
  { defaultTokenInfo with
    pairAddress := "PAIRB", priceNative := 1, liquidityUSD := 5000
    priceChangeM5 := 10, priceChangeH1 := 3, volumeM5 := 700
    m5BuySellRatio := 1 / 2 }

def c5Batch : List TokenInfo := [c5A, c5B]

/-- Witness for C5: in the concrete batch, the candidate at the batch
maximum 5m change normalizes to exactly 1 and the one at the batch
minimum to exactly 0. -/
theorem C5_minmax_normalization_witness :
    normOf ScoreDim.m5Change ((calculateScores c5Batch).headD defaultTokenInfo)
      = 0 ∧
    normOf ScoreDim.m5Change
      ((calculateScores c5Batch).getD 1 defaultTokenInfo) = 1 := by
  have hA : (calculateScores c5Batch).headD defaultTokenInfo ∈
      calculateScores c5Batch := by
    norm_num [calculateScores, c5Batch]
  have hB : (calculateScores c5Batch).getD 1 defaultTokenInfo ∈
      calculateScores c5Batch := by
    norm_num [calculateScores, c5Batch]
  refine ⟨(C5_minmax_normalization c5Batch (by norm_num [c5Batch])
      ScoreDim.m5Change _ hA).2.2.2 ?_,
    (C5_minmax_normalization c5Batch (by norm_num [c5Batch])
      ScoreDim.m5Change _ hB).2.1 ?_ ?_⟩
  · norm_num [calculateScores, c5Batch, c5A, c5B, defaultTokenInfo, rawOf,
      batchMin, scoreCandidate]
  · norm_num [calculateScores, c5Batch, c5A, c5B, defaultTokenInfo, rawOf,
      batchMax, scoreCandidate]
  · norm_num [c5Batch, c5A, c5B, defaultTokenInfo, batchMin, batchMax, rawOf]

/-! ### Go's `sort.Slice` (pdqsort, `sort/zsortfunc.go`, Go ≥ 1.19)

Line 484 of the source ranks candidates with `sort.Slice`, whose
algorithm lives in the Go standard library, not in this repository.  The
definitions below embed that algorithm so the ranking claim can be
evaluated on a concrete batch.  Loops are written with explicit fuel
(first argument of each loop); every fuel bound strictly dominates the
number of iterations the Go loop can make on the evaluated inputs. -/

/-- `data.Swap(i, j)` of the reflect-based `lessSwap`. -/
def aswap [Inhabited α] (xs : Array α) (i j : ℕ) : Array α :=
  let vi := xs.getD i default
  let vj := xs.getD j default
  (xs.setD i vj).setD j vi

/-- `data.Less(i, j)` of the reflect-based `lessSwap`: the closure reads
the slice being sorted. -/
def aless [Inhabited α] (lt : α → α → Bool) (xs : Array α) (i j : ℕ) : Bool :=
  lt (xs.getD i default) (xs.getD j default)

/-- Inner loop of `insertionSort_func`: shift element `j` left while it
sorts before its predecessor. -/
def insertionInner [Inhabited α] (lt : α → α → Bool) (a : ℕ) :
    Array α → ℕ → Array α
  | xs, 0 => xs
  | xs, j + 1 =>
    if a ≤ j && aless lt xs (j + 1) j then
      insertionInner lt a (aswap xs (j + 1) j) j
    else xs

/-- Outer loop of `insertionSort_func`, `i` from `a+1` while `i < b`. -/
def insertionLoop [Inhabited α] (lt : α → α → Bool) (a : ℕ) :
    ℕ → Array α → ℕ → Array α
  | 0, xs, _ => xs
  | fuel + 1, xs, i => insertionLoop lt a fuel (insertionInner lt a xs i) (i + 1)

/-- `insertionSort_func(data, a, b)`. -/
def insertionSortGo [Inhabited α] (lt : α → α → Bool) (xs : Array α)
    (a b : ℕ) : Array α :=
  insertionLoop lt a (b - (a + 1)) xs (a + 1)

/-- The loop of `siftDown_func(data, lo, hi, first)`, on root `r`. -/
def siftDownLoop [Inhabited α] (lt : α → α → Bool) (hi first : ℕ) :
    ℕ → Array α → ℕ → Array α
  | 0, xs, _ => xs
  | fuel + 1, xs, r =>
    let child := 2 * r + 1
    if child ≥ hi then xs
    else
      let child :=
        if child + 1 < hi && aless lt xs (first + child) (first + child + 1)
        then child + 1 else child
      if !aless lt xs (first + r) (first + child) then xs
      else siftDownLoop lt hi first fuel (aswap xs (first + r) (first + child)) child

def siftDownGo [Inhabited α] (lt : α → α → Bool) (xs : Array α)
    (lo hi first : ℕ) : Array α :=
  siftDownLoop lt hi first (hi + 1) xs lo

/-- Heap-building loop of `heapSort_func`: roots `(hi-1)/2` down to 0. -/
def heapBuildLoop [Inhabited α] (lt : α → α → Bool) (hi first : ℕ) :
    Array α → ℕ → Array α
  | xs, 0 => xs
  | xs, k + 1 => heapBuildLoop lt hi first (siftDownGo lt xs k hi first) k

/-- Pop loop of `heapSort_func`: `i` from `hi-1` down to 0. -/
def heapPopLoop [Inhabited α] (lt : α → α → Bool) (first : ℕ) :
    Array α → ℕ → Array α
  | xs, 0 => xs
  | xs, i + 1 =>
    let xs := aswap xs first (first + i)
    heapPopLoop lt first (siftDownGo lt xs 0 i first) i

/-- `heapSort_func(data, a, b)`. -/
def heapSortGo [Inhabited α] (lt : α → α → Bool) (xs : Array α) (a b : ℕ) :
    Array α :=
  let hi := b - a
  heapPopLoop lt a (heapBuildLoop lt hi a xs ((hi - 1) / 2 + 1)) hi

/-- `bits.Len` on a value that fits in 64 bits (fuelled binary length). -/
def bitsLenAux : ℕ → ℕ → ℕ
  | 0, _ => 0
  | fuel + 1, n => if n = 0 then 0 else bitsLenAux fuel (n / 2) + 1

def bitsLen (n : ℕ) : ℕ := bitsLenAux 64 n

/-- One step of the `xorshift` generator seeded by `breakPatterns_func`
(`uint64` arithmetic as values below 2^64). -/
def xorshiftNext (r : ℕ) : ℕ :=
  let r := Nat.xor r ((r <<< 13) % 2 ^ 64)
  let r := Nat.xor r (r >>> 7)
  Nat.xor r ((r <<< 17) % 2 ^ 64)

def nextPowerOfTwo (length : ℕ) : ℕ := 2 ^ bitsLen length

/-- `breakPatterns_func(data, a, b)`: three pseudo-random swaps around the
middle when the range is 8 or longer. -/
def breakPatternsGo [Inhabited α] (xs : Array α) (a b : ℕ) : Array α :=
  let length := b - a
  if length ≥ 8 then
    let r0 := xorshiftNext length
    let r1 := xorshiftNext r0
    let r2 := xorshiftNext r1
    let modulus := nextPowerOfTwo length
    let idx := a + (length / 4) * 2 - 1
    let pick := fun (rnd : ℕ) =>
      let other := Nat.land rnd (modulus - 1)
      if other ≥ length then other - length else other
    let xs := aswap xs (idx - 1) (a + pick r0)
    let xs := aswap xs idx (a + pick r1)
    aswap xs (idx + 1) (a + pick r2)
  else xs

inductive SortedHint where
  | increasing
  | decreasing
  | unknown
deriving DecidableEq

/-- `order2_func`: order two indices by the data they point at, counting
a swap of the index pair. -/
def order2Go [Inhabited α] (lt : α → α → Bool) (xs : Array α)
    (i j swaps : ℕ) : ℕ × ℕ × ℕ :=
  if aless lt xs j i then (j, i, swaps + 1) else (i, j, swaps)

/-- `median_func`: index of the median of three, counting index swaps. -/
def medianGo [Inhabited α] (lt : α → α → Bool) (xs : Array α)
    (i j k swaps : ℕ) : ℕ × ℕ :=
  let (i, j, swaps) := order2Go lt xs i j swaps
  let (j, _, swaps) := order2Go lt xs j k swaps
  let (_, j, swaps) := order2Go lt xs i j swaps
  (j, swaps)

/-- `medianAdjacent_func`: median of `i-1, i, i+1`. -/
def medianAdjacentGo [Inhabited α] (lt : α → α → Bool) (xs : Array α)
    (i swaps : ℕ) : ℕ × ℕ :=
  medianGo lt xs (i - 1) i (i + 1) swaps

/-- `choosePivot_func`: median (or ninther for 50+) with a sortedness
hint from the number of index swaps (0 = increasing, 12 = decreasing). -/
def choosePivotGo [Inhabited α] (lt : α → α → Bool) (xs : Array α)
    (a b : ℕ) : ℕ × SortedHint :=
  let l := b - a
  let i := a + l / 4 * 1
  let j := a + l / 4 * 2
  let k := a + l / 4 * 3
  let (j, swaps) :=
    if l ≥ 8 then
      if l ≥ 50 then
        let (i, swaps) := medianAdjacentGo lt xs i 0
        let (j, swaps) := medianAdjacentGo lt xs j swaps
        let (k, swaps) := medianAdjacentGo lt xs k swaps
        medianGo lt xs i j k swaps
      else
        medianGo lt xs i j k 0
    else (j, 0)
  if swaps = 0 then (j, SortedHint.increasing)
  else if swaps = 12 then (j, SortedHint.decreasing)
  else (j, SortedHint.unknown)

/-- Ascent scan of `partialInsertionSort_func`: advance `i` while the
element does not sort before its predecessor. -/
def scanAscending [Inhabited α] (lt : α → α → Bool) (xs : Array α) (b : ℕ) :
    ℕ → ℕ → ℕ
  | 0, i => i
  | fuel + 1, i =>
    if i < b && !aless lt xs i (i - 1) then scanAscending lt xs b fuel (i + 1)
    else i

/-- Left-shift loop of `partialInsertionSort_func` (`j` from `i-1` down
while `j ≥ 1` and the element sorts before its predecessor). -/
def shiftLeftLoop [Inhabited α] (lt : α → α → Bool) : Array α → ℕ → Array α
  | xs, 0 => xs
  | xs, j + 1 =>
    if !aless lt xs (j + 1) j then xs
    else shiftLeftLoop lt (aswap xs (j + 1) j) j

/-- Right-shift loop of `partialInsertionSort_func` (`j` from `i+1` up
while `j < b` and the element sorts before its predecessor). -/
def shiftRightLoop [Inhabited α] (lt : α → α → Bool) (b : ℕ) :
    ℕ → Array α → ℕ → Array α
  | 0, xs, _ => xs
  | fuel + 1, xs, j =>
    if j < b then
      if !aless lt xs j (j - 1) then xs
      else shiftRightLoop lt b fuel (aswap xs j (j - 1)) (j + 1)
    else xs

/-- The `maxSteps = 5` loop of `partialInsertionSort_func`; returns the
array and whether the range turned out fully sorted. -/
def partialInsertionLoop [Inhabited α] (lt : α → α → Bool) (a b : ℕ) :
    ℕ → Array α → ℕ → Array α × Bool
  | 0, xs, _ => (xs, false)
  | steps + 1, xs, i =>
    let i := scanAscending lt xs b (b + 1) i
    if i = b then (xs, true)
    else if b - a < 50 then (xs, false)
    else
      let xs := aswap xs i (i - 1)
      let xs := if i - a ≥ 2 then shiftLeftLoop lt xs (i - 1) else xs
      let xs := if b - i ≥ 2 then shiftRightLoop lt b (b + 1) xs (i + 1) else xs
      partialInsertionLoop lt a b steps xs i

/-- `partialInsertionSort_func(data, a, b)`. -/
def partialInsertionSortGo [Inhabited α] (lt : α → α → Bool) (xs : Array α)
    (a b : ℕ) : Array α × Bool :=
  partialInsertionLoop lt a b 5 xs (a + 1)

/-- `reverseRange_func(data, a, b)`. -/
def reverseRangeLoop [Inhabited α] : ℕ → Array α → ℕ → ℕ → Array α
  | 0, xs, _, _ => xs
  | fuel + 1, xs, i, j =>
    if i < j then reverseRangeLoop fuel (aswap xs i j) (i + 1) (j - 1) else xs

def reverseRangeGo [Inhabited α] (xs : Array α) (a b : ℕ) : Array α :=
  reverseRangeLoop b xs a (b - 1)

/-- `partition_func`'s `i` advance: while `i ≤ j` and data[i] sorts
before the pivot parked at `a`. -/
def advanceI [Inhabited α] (lt : α → α → Bool) (xs : Array α) (a j : ℕ) :
    ℕ → ℕ → ℕ
  | 0, i => i
  | fuel + 1, i =>
    if i ≤ j && aless lt xs i a then advanceI lt xs a j fuel (i + 1) else i

/-- `partition_func`'s `j` retreat: while `i ≤ j` and data[j] does not
sort before the pivot parked at `a`. -/
def retreatJ [Inhabited α] (lt : α → α → Bool) (xs : Array α) (a i : ℕ) :
    ℕ → ℕ → ℕ
  | 0, j => j
  | fuel + 1, j =>
    if i ≤ j && !aless lt xs j a then retreatJ lt xs a i fuel (j - 1) else j

/-- Main loop of `partition_func` after the first advance/retreat/swap. -/
def partitionLoop [Inhabited α] (lt : α → α → Bool) (a b : ℕ) :
    ℕ → Array α → ℕ → ℕ → Array α × ℕ
  | 0, xs, _, j => (xs, j)
  | fuel + 1, xs, i, j =>
    let i := advanceI lt xs a j (b + 2) i
    let j := retreatJ lt xs a i (b + 2) j
    if i > j then (xs, j)
    else partitionLoop lt a b fuel (aswap xs i j) (i + 1) (j - 1)

/-- `partition_func(data, a, b, pivot)`: parks the pivot at `a`, returns
the array, the new pivot position, and whether the range was already
partitioned. -/
def partitionGo [Inhabited α] (lt : α → α → Bool) (xs : Array α)
    (a b pivot : ℕ) : Array α × ℕ × Bool :=
  let xs := aswap xs a pivot
  let i := a + 1
  let j := b - 1
  let i := advanceI lt xs a j (b + 2) i
  let j := retreatJ lt xs a i (b + 2) j
  if i > j then (aswap xs j a, j, true)
  else
    let xs := aswap xs i j
    let (xs, j) := partitionLoop lt a b (b + 2) xs (i + 1) (j - 1)
    (aswap xs j a, j, false)

/-- `partitionEqual_func`'s `i` advance: while the pivot does not sort
before data[i] (i.e. data[i] equals the pivot under the order). -/
def advanceIEq [Inhabited α] (lt : α → α → Bool) (xs : Array α) (a j : ℕ) :
    ℕ → ℕ → ℕ
  | 0, i => i
  | fuel + 1, i =>
    if i ≤ j && !aless lt xs a i then advanceIEq lt xs a j fuel (i + 1) else i

/-- `partitionEqual_func`'s `j` retreat: while the pivot sorts before
data[j]. -/
def retreatJEq [Inhabited α] (lt : α → α → Bool) (xs : Array α) (a i : ℕ) :
    ℕ → ℕ → ℕ
  | 0, j => j
  | fuel + 1, j =>
    if i ≤ j && aless lt xs a j then retreatJEq lt xs a i fuel (j - 1) else j

def partitionEqualLoop [Inhabited α] (lt : α → α → Bool) (a b : ℕ) :
    ℕ → Array α → ℕ → ℕ → Array α × ℕ
  | 0, xs, i, _ => (xs, i)
  | fuel + 1, xs, i, j =>
    let i := advanceIEq lt xs a j (b + 2) i
    let j := retreatJEq lt xs a i (b + 2) j
    if i > j then (xs, i)
    else partitionEqualLoop lt a b fuel (aswap xs i j) (i + 1) (j - 1)

/-- `partitionEqual_func(data, a, b, pivot)`: peels off elements equal to
the pivot, returns the array and the new left bound. -/
def partitionEqualGo [Inhabited α] (lt : α → α → Bool) (xs : Array α)
    (a b pivot : ℕ) : Array α × ℕ :=
  let xs := aswap xs a pivot
  let (xs, i) := partitionEqualLoop lt a b (b + 2) xs (a + 1) (b - 1)
  (xs, i)

/-- `pdqsort_func(data, a, b, limit)`.  The Go `for` loop's `continue`
is the tail self-call; the recursive call on the shorter side restarts
with `wasBalanced = wasPartitioned = true` exactly as the Go locals do. -/
def pdqsortGo [Inhabited α] (lt : α → α → Bool) :
    ℕ → Array α → ℕ → ℕ → ℕ → Bool → Bool → Array α
  | 0, xs, _, _, _, _, _ => xs
  | fuel + 1, xs, a, b, limit, wasBalanced, wasPartitioned =>
    let length := b - a
    if length ≤ 12 then insertionSortGo lt xs a b
    else if limit = 0 then heapSortGo lt xs a b
    else
      let (xs, limit) :=
        if !wasBalanced then (breakPatternsGo xs a b, limit - 1)
        else (xs, limit)
      let (pivot, hint) := choosePivotGo lt xs a b
      let (xs, pivot, hint) :=
        if hint = SortedHint.decreasing then
          (reverseRangeGo xs a b, (b - 1) - (pivot - a), SortedHint.increasing)
        else (xs, pivot, hint)
      let (xs, sortedEarly) :=
        if wasBalanced && wasPartitioned && (hint == SortedHint.increasing) then
          partialInsertionSortGo lt xs a b
        else (xs, false)
      if sortedEarly then xs
      else if a > 0 && !aless lt xs (a - 1) pivot then
        let (xs, mid) := partitionEqualGo lt xs a b pivot
        pdqsortGo lt fuel xs mid b limit wasBalanced wasPartitioned
      else
        let (xs, mid, alreadyPartitioned) := partitionGo lt xs a b pivot
        let leftLen := mid - a
        let rightLen := b - mid
        let balanceThreshold := length / 8
        let wasBalanced := decide (min leftLen rightLen ≥ balanceThreshold)
        let wasPartitioned := alreadyPartitioned
        if leftLen < rightLen then
          let xs := pdqsortGo lt fuel xs a mid limit true true
          pdqsortGo lt fuel xs (mid + 1) b limit wasBalanced wasPartitioned
        else
          let xs := pdqsortGo lt fuel xs (mid + 1) b limit true true
          pdqsortGo lt fuel xs a mid limit wasBalanced wasPartitioned

/-- `sort.Slice(x, less)`: pdqsort over the whole slice with
`limit = bits.Len(n)`. -/
def sortSliceGo [Inhabited α] (lt : α → α → Bool) (xs : Array α) : Array α :=
  pdqsortGo lt (xs.size + 64) xs 0 xs.size (bitsLen xs.size) true true

/-- The comparator of line 484:
`scoredCandidates[i].Score > scoredCandidates[j].Score`. -/
def scoreGreater (x y : TokenInfo) : Bool := y.score < x.score

def c2tok (name : String) (s : ℚ) : TokenInfo :=
  { defaultTokenInfo with pairAddress := name, score := s }

/-- 13 scored candidates: twelve with equal score 1 in input order
P0..P11, and one clear winner P12 with score 2 at the end. -/
def c2Batch : List TokenInfo :=
  [c2tok "P0" 1, c2tok "P1" 1, c2tok "P2" 1, c2tok "P3" 1, c2tok "P4" 1,
   c2tok "P5" 1, c2tok "P6" 1, c2tok "P7" 1, c2tok "P8" 1, c2tok "P9" 1,
   c2tok "P10" 1, c2tok "P11" 1, c2tok "P12" 2]

set_option maxRecDepth 8000 in
/-- C2 (evaluation of the code at the failing input): `sort.Slice` with
the line-484 comparator, applied to 13 scored candidates of which twelve
share score 1, reorders the equal-score candidates — the output is sorted
by score descending but is NOT the stable order, so ties do not keep
their input order and the top candidate on a tie is not fixed by input
order. -/
theorem C2_sortSlice_unstable :
    ((sortSliceGo scoreGreater c2Batch.toArray).toList.map
      (fun c => c.pairAddress)) =
      ["P12", "P6", "P2", "P3", "P4", "P5", "P0", "P7", "P8", "P9", "P10",
       "P11", "P1"] ∧
    ((sortSliceGo scoreGreater c2Batch.toArray).toList.map
      (fun c => c.pairAddress)) ≠
      ["P12", "P0", "P1", "P2", "P3", "P4", "P5", "P6", "P7", "P8", "P9",
       "P10", "P11"] := by
  constructor <;> decide

end Paperstrat
